import Mathlib

/-!
Verification development for the CCIP MCP server (src/mcp-server.py).

The embedding models:
  * the `SUPPORTED_CHAINS` registry and `find_closest_chain` (exact pass,
    then fuzzy matching through `difflib.get_close_matches`);
  * the `execute_ccip_transfer` branch of `handle_call_tool`: validation,
    default parameters, the eight ordered capability calls against a
    `CCIPClient`, the accumulated progress text, and the failure text.

Strings are modelled as `List Char`.  Python `str.lower`/`str.strip` are
modelled for the ASCII range (the registry, and every input the claims put
through them, is ASCII).  The JSON numbers of the request are modelled as
exact rationals: the program never does arithmetic on them, it only stores
and prints them.  Similarity ratios are compared exactly as rationals
(`ratio >= 0.6` becomes `10 * matched >= 3 * (len a + len b)`); for the
short strings involved the floating-point comparison in `difflib` agrees
with the exact rational one, since candidate ratios are spaced far wider
apart than double rounding error.
-/

set_option maxRecDepth 100000

/-- Conversion from a Lean string literal to the `List Char` used throughout. -/
def lc (s : String) : List Char := s.data

/-- Model of Python `str.lower` applied character-wise (ASCII range; the
registry aliases and inputs at issue are ASCII). -/
def lowerL (s : List Char) : List Char := s.map Char.toLower

/-- Whitespace as stripped by Python `str.strip` (ASCII part). -/
def pyIsSpace (c : Char) : Bool :=
  c = ' ' || c = '\t' || c = '\n' || c = '\r' || c.toNat = 11 || c.toNat = 12

/-- Model of Python `str.strip`: drop whitespace from both ends. -/
def stripL (s : List Char) : List Char :=
  ((s.dropWhile pyIsSpace).reverse.dropWhile pyIsSpace).reverse

/-- `user_input.lower().strip()` from `find_closest_chain` (line 27). -/
def normalizeInput (s : List Char) : List Char := stripL (lowerL s)

/-- The `SUPPORTED_CHAINS` dict (lines 18-23), in insertion order. -/
def SUPPORTED_CHAINS : List (List Char × List (List Char)) :=
  [ (lc "ethereum_sepolia",
      [lc "ethereum", lc "eth", lc "sepolia", lc "ethereum sepolia",
       lc "eth sepolia", lc "ethereum_sepolia"]),
    (lc "base_sepolia",
      [lc "base", lc "base sepolia", lc "base_sepolia", lc "coinbase"]),
    (lc "arbitrum_sepolia",
      [lc "arbitrum", lc "arb", lc "arbitrum sepolia", lc "arbitrum_sepolia",
       lc "arb sepolia"]),
    (lc "avalanche_fuji",
      [lc "avalanche", lc "avax", lc "fuji", lc "avalanche fuji",
       lc "avalanche_fuji", lc "avax fuji"]) ]

/-!
Model of `difflib.SequenceMatcher` as used by `get_close_matches(word,
all_aliases, n=1, cutoff=0.6)`.  `seq1 = a` is the candidate alias, `seq2 =
b` is the user's word.  `autojunk` only kicks in for `len(b) >= 200`; junked
`b` elements can only lower a ratio, and with aliases of length at most 16 a
word of length at least 200 can never reach the 0.6 cutoff either way, so the
junk-free model below decides candidacy exactly as `difflib` does.
-/

/-- Positions `j` in `[blo, bhi)` with `b[j] = chr`, ascending: the inner
iteration order of `find_longest_match` (`b2j.get(a[i])` filtered to the
window). -/
def posList (chr : Char) (b : List Char) (blo bhi : Nat) : List Nat :=
  (List.range b.length).filter
    (fun j => decide (blo ≤ j) && decide (j < bhi) && decide (b.get? j = some chr))

/-- Lookup with default 0 in the `j2len` association list. -/
def lookup0 (m : List (Nat × Nat)) (j : Nat) : Nat :=
  match m.find? (fun q => decide (q.1 = j)) with
  | some q => q.2
  | none => 0

/-- Running best of the longest-match scan: `besti, bestj, bestsize`. -/
structure FLMState where
  besti : Nat
  bestj : Nat
  bestsize : Nat
deriving Repr, DecidableEq

/-- One row (`for j in b2j.get(a[i]) ...`) of `find_longest_match`: builds
`newj2len` and updates the best triple exactly as the Python loop does
(strict `k > bestsize`, so the earliest maximal match is kept). -/
def flmInner (j2len : List (Nat × Nat)) (i : Nat) (js : List Nat)
    (st : FLMState) : List (Nat × Nat) × FLMState :=
  js.foldl
    (fun acc j =>
      let k := (if j = 0 then 0 else lookup0 j2len (j - 1)) + 1
      let newm := (j, k) :: acc.1
      if acc.2.bestsize < k then (newm, ⟨i + 1 - k, j + 1 - k, k⟩)
      else (newm, acc.2))
    ([], st)

/-- `SequenceMatcher.find_longest_match(alo, ahi, blo, bhi)` without junk.
With no junk the trailing extension loops of the Python source cannot move
the found maximum and are omitted. -/
def find_longest_match (a b : List Char) (alo ahi blo bhi : Nat) :
    Nat × Nat × Nat :=
  let res :=
    ((List.range (ahi - alo)).map (fun t => t + alo)).foldl
      (fun (acc : List (Nat × Nat) × FLMState) i =>
        flmInner acc.1 i (posList (a.getD i ⟨0, by decide⟩) b blo bhi) acc.2)
      ([], ⟨alo, blo, 0⟩)
  (res.2.besti, res.2.bestj, res.2.bestsize)

/-- Total size of the matching blocks found by `get_matching_blocks`:
recursively take the longest match and recurse on both sides.  The fuel is
an upper bound on the recursion depth (each level removes at least one
character from the combined window), so it never runs out in the uses
below. -/
def matchingTotal (a b : List Char) : Nat → Nat → Nat → Nat → Nat → Nat
  | 0, _, _, _, _ => 0
  | fuel + 1, alo, ahi, blo, bhi =>
    let t := find_longest_match a b alo ahi blo bhi
    let i := t.1
    let j := t.2.1
    let k := t.2.2
    if k = 0 then 0
    else
      k + matchingTotal a b fuel alo i blo j +
        matchingTotal a b fuel (i + k) ahi (j + k) bhi

/-- `sum(triple.size for triple in get_matching_blocks())` for the full
sequences. -/
def totalMatched (a b : List Char) : Nat :=
  matchingTotal a b (a.length + b.length + 1) 0 a.length 0 b.length

/-- `SequenceMatcher(a, b).ratio() >= 0.6`, decided exactly:
`2*M/(la+lb) >= 3/5  ↔  10*M >= 3*(la+lb)`.  The chained
`real_quick_ratio / quick_ratio / ratio` cutoff test of `get_close_matches`
is equivalent to this single test because the first two are upper bounds on
`ratio`. -/
def ratioGE (a b : List Char) : Bool :=
  decide (3 * (a.length + b.length) ≤ 10 * totalMatched a b)

/-- Python string `<` on code points, used by the tuple comparison inside
`heapq.nlargest` for ties on the score. -/
def strLtL : List Char → List Char → Bool
  | _, [] => false
  | [], _ :: _ => true
  | c :: cs, d :: ds =>
    if c.toNat < d.toNat then true
    else if d.toNat < c.toNat then false
    else strLtL cs ds

/-- Comparison of the `(ratio, string)` tuples that `get_close_matches`
ranks: `x`'s tuple is strictly greater than `y`'s (ratios compared exactly
by cross-multiplication, tie broken by Python string order). -/
def betterTuple (w x y : List Char) : Bool :=
  let mx := totalMatched x w
  let tx := x.length + w.length
  let my := totalMatched y w
  let ty := y.length + w.length
  if my * tx < mx * ty then true
  else if mx * ty < my * tx then false
  else strLtL y x

/-- The flattened `all_aliases` list (lines 35-40), lowered, in registry
iteration order. -/
def allAliases : List (List Char) :=
  (SUPPORTED_CHAINS.map (fun p => p.2.map lowerL)).flatten

/-- The `(alias.lower(), chain_key)` pairs backing `chain_mapping`. -/
def aliasPairs : List (List Char × List Char) :=
  (SUPPORTED_CHAINS.map (fun p => p.2.map (fun a => (lowerL a, p.1)))).flatten

/-- `chain_mapping[alias]`: dict built by successive assignment, so the last
binding of a key wins — hence the lookup over the reversed pair list.  (All
keys are in fact distinct.) -/
def chain_mapping (u : List Char) : Option (List Char) :=
  (aliasPairs.reverse.find? (fun q => decide (q.1 = u))).map (fun q => q.2)

/-- One candidate of the `get_close_matches` scan: keep `x` when it meets
the cutoff and its `(ratio, string)` tuple beats the best so far. -/
def gcmStep (w : List Char) (acc : Option (List Char)) (x : List Char) :
    Option (List Char) :=
  if ratioGE x w then
    match acc with
    | none => some x
    | some y => if betterTuple w x y then some x else acc
  else acc

/-- `get_close_matches(word, all_aliases, n=1, cutoff=0.6)` reduced to its
single best result: keep the candidates whose ratio meets the cutoff and
take the maximum `(ratio, string)` tuple (`nlargest` with `n = 1` is
`max`, which keeps the earliest of equals; candidate strings are distinct,
so `betterTuple` decides every tie). -/
def get_close_matches1 (w : List Char) : Option (List Char) :=
  allAliases.foldl (gcmStep w) none

/-- The direct-match pass of `find_closest_chain` (lines 30-32): first
registry entry whose lowered alias list contains the normalized input. -/
def exactPass (u : List Char) : Option (List Char) :=
  (SUPPORTED_CHAINS.find? (fun p => decide (u ∈ p.2.map lowerL))).map
    (fun p => p.1)

/-- `find_closest_chain` after input normalization: exact pass, then fuzzy
matching, then `None`. -/
def findNorm (u : List Char) : Option (List Char) :=
  match exactPass u with
  | some c => some c
  | none =>
    match get_close_matches1 u with
    | some m => chain_mapping m
    | none => none

/-- `find_closest_chain(user_input)` (lines 25-46). -/
def find_closest_chain (s : List Char) : Option (List Char) :=
  findNorm (normalizeInput s)

/-!
Model of the `execute_ccip_transfer` branch of `handle_call_tool`
(lines 122-252).

The `CCIPClient` from `ccip_sdk` is the external capability: each of its
eight operations is a function that either returns a handle (`Except.ok`)
or raises (`Except.error` with the exception's `str(e)` text).  Importing
the module and constructing the client are assumed to succeed; required
arguments are modelled as present (the tool schema requires them).

To state the call-count/ordering claims, the run is instrumented with the
trace of capability invocations, in order, as a `List CallRec`: the model
returns the trace alongside the text the Python function returns.
-/

/-- The eight operations of the external `CCIPClient` capability.  A call
either returns a handle string or raises with a message. -/
structure CCIPClient where
  deploy_sender_contract : List Char → Except (List Char) (List Char)
  send_tokens_to_sender_contract :
    List Char → List Char → ℚ → Except (List Char) (List Char)
  send_eth_to_contract : List Char → ℚ → Except (List Char) (List Char)
  allow_destination_chain : List Char → List Char → Except (List Char) (List Char)
  deploy_receiver_contract : List Char → Except (List Char) (List Char)
  allow_source_chain : List Char → List Char → Except (List Char) (List Char)
  allow_sender_on_receiver : List Char → List Char → Except (List Char) (List Char)
  transfer : List Char → List Char → List Char → ℚ → Except (List Char) (List Char)

/-- One capability invocation, with the arguments it was given. -/
inductive CallRec where
  | deploySender (chain : List Char)
  | sendTokens (chain tokenType : List Char) (amount : ℚ)
  | sendEth (chain : List Char) (amount : ℚ)
  | allowDest (currentChain destinationChain : List Char)
  | deployReceiver (chain : List Char)
  | allowSource (currentChain senderChain : List Char)
  | allowSenderOnRcv (senderChain receiverChain : List Char)
  | transferCall (senderChain receiverChain msg : List Char) (amount : ℚ)
deriving Repr, DecidableEq

/-- The arguments map of an `execute_ccip_transfer` call: the three required
fields and the five optional ones (`arguments.get(..., default)`). -/
structure TransferArgs where
  sender_chain : List Char
  receiver_chain : List Char
  private_key : List Char
  token_type : Option (List Char)
  token_amount : Option ℚ
  eth_amount : Option ℚ
  transfer_amount : Option ℚ
  message : Option (List Char)

/-- The five optional parameters after defaulting (lines 152-156). -/
structure TransferParams where
  token_type : List Char
  token_amount : ℚ
  eth_amount : ℚ
  transfer_amount : ℚ
  message : List Char
deriving Repr, DecidableEq

/-- Lines 152-156: `arguments.get("token_type", "CCIP-BnM")` and the other
four defaulted lookups. -/
def getParams (args : TransferArgs) : TransferParams where
  token_type := args.token_type.getD (lc "CCIP-BnM")
  token_amount := args.token_amount.getD (0.1 : ℚ)
  eth_amount := args.eth_amount.getD (0.05 : ℚ)
  transfer_amount := args.transfer_amount.getD (0.069 : ℚ)
  message := args.message.getD (lc "Cross-chain transfer via MCP")

/-- Decimal rendering of a rational, standing in for Python's number
formatting inside f-strings.  The program does no arithmetic on the
amounts, so no claim depends on this rendering; it is here so the texts are
complete. -/
def fracDigits : Nat → Nat → Nat → List Char
  | 0, _, _ => []
  | fuel + 1, num, den =>
    if num = 0 then []
    else
      Char.ofNat (48 + num * 10 / den) :: fracDigits fuel (num * 10 % den) den

/-- Rendering of an amount as `intpart.fracpart` (see `fracDigits`). -/
def showAmount (q : ℚ) : List Char :=
  let sgn := if q < 0 then lc "-" else []
  let n := q.num.natAbs
  let d := q.den
  let frac := fracDigits 30 (n % d) d
  sgn ++ Nat.toDigits 10 (n / d) ++ lc "." ++ (if frac = [] then lc "0" else frac)

/-- Python's `list(SUPPORTED_CHAINS.keys())` rendering: the keys,
single-quoted, comma-joined, bracketed. -/
def pyStrList (xs : List (List Char)) : List Char :=
  match xs with
  | [] => lc "[]"
  | x :: rest =>
    lc "[\x27" ++ x ++
      rest.foldr (fun y acc => lc "\x27, \x27" ++ y ++ acc) (lc "\x27]")

/-- The `{list(SUPPORTED_CHAINS.keys())}` text used in the failure
messages. -/
def supportedChainsStr : List Char := pyStrList (SUPPORTED_CHAINS.map (fun p => p.1))

/-- The supported-token enumeration of the step-failure text. -/
def supportedTokensStr : List Char := lc "LINK, CCIP-BnM, USDC, CCIP-LnM"

/-- Lines 134-137: response to an unresolvable sender chain. -/
def invalidSenderMsg (s : List Char) : List Char :=
  lc "❌ Invalid sender chain \x27" ++ s ++ lc "\x27. Supported: " ++ supportedChainsStr

/-- Lines 140-143: response to an unresolvable receiver chain. -/
def invalidReceiverMsg (s : List Char) : List Char :=
  lc "❌ Invalid receiver chain \x27" ++ s ++ lc "\x27. Supported: " ++ supportedChainsStr

/-- Lines 146-149: response when sender and receiver resolve to the same
chain. -/
def sameChainMsg : List Char :=
  lc "❌ Sender and receiver chains must be different"

/-- Lines 239-251: the `except` branch's text, a function of `str(e)`
alone. -/
def errorMsg (e : List Char) : List Char :=
  lc "❌ **Transfer Failed**\n\n**Error:** " ++ e ++
    lc "\n\n**Troubleshooting:**\n• Check your private key has sufficient funds on both chains\n• Verify chain names are correct\n• Ensure token type is supported\n• Check network connectivity\n\n**Supported Chains:** " ++
    supportedChainsStr ++ lc "\n**Supported Tokens:** " ++ supportedTokensStr ++ lc "\n"

/-- The eight capability calls a fully validated run issues, in program
order, with the arguments the code passes (lines 177, 182, 187, 192, 197,
202, 207, 212-217). -/
def stepCalls (sc rc : List Char) (p : TransferParams) : List CallRec :=
  [ .deploySender sc,
    .sendTokens sc p.token_type p.token_amount,
    .sendEth sc p.eth_amount,
    .allowDest sc rc,
    .deployReceiver rc,
    .allowSource rc sc,
    .allowSenderOnRcv sc rc,
    .transferCall sc rc p.message p.transfer_amount ]

/-- The full success text: the header (lines 162-173), the eight progress
fragments accumulated by `result_text +=`, and the completion block
(lines 219-234). -/
def successText (sc rc : List Char) (p : TransferParams)
    (h1 h2 h3 h4 h5 h6 h7 h8 : List Char) : List Char :=
  lc "🚀 **Starting CCIP Cross-Chain Transfer**\n\n📋 **Configuration:**\n• **From:** " ++
  sc ++ lc "\n• **To:** " ++ rc ++ lc "\n• **Token:** " ++ p.token_type ++
  lc "\n• **Amount:** " ++ showAmount p.transfer_amount ++ lc "\n• **Message:** \"" ++
  p.message ++ lc "\"\n\n⏳ **Executing all steps...**\n\n" ++
  lc "🔄 **Step 1:** Deploying sender contract...\n" ++
  lc "✅ Sender contract deployed: `" ++ h1 ++ lc "`\n\n" ++
  lc "🔄 **Step 2:** Sending " ++ showAmount p.token_amount ++ lc " " ++
  p.token_type ++ lc " to sender...\n" ++
  lc "✅ Tokens sent: `" ++ h2 ++ lc "`\n\n" ++
  lc "🔄 **Step 3:** Sending " ++ showAmount p.eth_amount ++ lc " ETH for gas...\n" ++
  lc "✅ ETH sent: `" ++ h3 ++ lc "`\n\n" ++
  lc "🔄 **Step 4:** Configuring destination chain (" ++ rc ++ lc ")...\n" ++
  lc "✅ Destination configured: `" ++ h4 ++ lc "`\n\n" ++
  lc "🔄 **Step 5:** Deploying receiver contract...\n" ++
  lc "✅ Receiver contract deployed: `" ++ h5 ++ lc "`\n\n" ++
  lc "🔄 **Step 6:** Configuring source chain (" ++ sc ++ lc ")...\n" ++
  lc "✅ Source configured: `" ++ h6 ++ lc "`\n\n" ++
  lc "🔄 **Step 7:** Linking sender and receiver contracts...\n" ++
  lc "✅ Contracts linked: `" ++ h7 ++ lc "`\n\n" ++
  lc "🔄 **Step 8:** Executing cross-chain transfer of " ++
  showAmount p.transfer_amount ++ lc " " ++ p.token_type ++ lc "...\n" ++
  lc "🎉 **TRANSFER COMPLETE!**\n\n✨ **Success!** Cross-chain transfer executed successfully!\n\n🔗 **Track Transfer:** " ++
  h8 ++ lc "\n\n📊 **Summary:**\n• **Sender Contract:** `" ++ h1 ++
  lc "`\n• **Receiver Contract:** `" ++ h5 ++ lc "`\n• **From:** " ++ sc ++
  lc " \n• **To:** " ++ rc ++ lc "\n• **Amount:** " ++
  showAmount p.transfer_amount ++ lc " " ++ p.token_type ++
  lc "\n• **Message:** \"" ++ p.message ++
  lc "\"\n\n🎯 **All 8 steps completed successfully!**\n"

/-- The eight sequential capability calls (lines 175-236), with the
`except` branch (lines 238-252) as the error case of each.  On an exception
the accumulated `result_text` is abandoned and `errorMsg` is returned; the
trace records which calls were issued. -/
def runSteps (client : CCIPClient) (sc rc : List Char) (p : TransferParams) :
    List CallRec × List Char :=
  match client.deploy_sender_contract sc with
  | .error e => ([.deploySender sc], errorMsg e)
  | .ok h1 =>
  match client.send_tokens_to_sender_contract sc p.token_type p.token_amount with
  | .error e =>
    ([.deploySender sc, .sendTokens sc p.token_type p.token_amount], errorMsg e)
  | .ok h2 =>
  match client.send_eth_to_contract sc p.eth_amount with
  | .error e =>
    ([.deploySender sc, .sendTokens sc p.token_type p.token_amount,
      .sendEth sc p.eth_amount], errorMsg e)
  | .ok h3 =>
  match client.allow_destination_chain sc rc with
  | .error e =>
    ([.deploySender sc, .sendTokens sc p.token_type p.token_amount,
      .sendEth sc p.eth_amount, .allowDest sc rc], errorMsg e)
  | .ok h4 =>
  match client.deploy_receiver_contract rc with
  | .error e =>
    ([.deploySender sc, .sendTokens sc p.token_type p.token_amount,
      .sendEth sc p.eth_amount, .allowDest sc rc, .deployReceiver rc], errorMsg e)
  | .ok h5 =>
  match client.allow_source_chain rc sc with
  | .error e =>
    ([.deploySender sc, .sendTokens sc p.token_type p.token_amount,
      .sendEth sc p.eth_amount, .allowDest sc rc, .deployReceiver rc,
      .allowSource rc sc], errorMsg e)
  | .ok h6 =>
  match client.allow_sender_on_receiver sc rc with
  | .error e =>
    ([.deploySender sc, .sendTokens sc p.token_type p.token_amount,
      .sendEth sc p.eth_amount, .allowDest sc rc, .deployReceiver rc,
      .allowSource rc sc, .allowSenderOnRcv sc rc], errorMsg e)
  | .ok h7 =>
  match client.transfer sc rc p.message p.transfer_amount with
  | .error e =>
    ([.deploySender sc, .sendTokens sc p.token_type p.token_amount,
      .sendEth sc p.eth_amount, .allowDest sc rc, .deployReceiver rc,
      .allowSource rc sc, .allowSenderOnRcv sc rc,
      .transferCall sc rc p.message p.transfer_amount], errorMsg e)
  | .ok h8 =>
    (stepCalls sc rc p, successText sc rc p h1 h2 h3 h4 h5 h6 h7 h8)

/-- The whole `execute_ccip_transfer` branch (lines 122-252): resolve both
chains, run the three validation checks in order, then the eight steps.
Returns the capability-call trace alongside the response text. -/
def execute_ccip_transfer (args : TransferArgs) (client : CCIPClient) :
    List CallRec × List Char :=
  match find_closest_chain args.sender_chain with
  | none => ([], invalidSenderMsg args.sender_chain)
  | some sc =>
    match find_closest_chain args.receiver_chain with
    | none => ([], invalidReceiverMsg args.receiver_chain)
    | some rc =>
      if sc = rc then ([], sameChainMsg)
      else runSteps client sc rc (getParams args)

/-!
Concrete clients and argument maps used to instantiate the theorems: a mock
capability on which every call succeeds, and variants failing at a chosen
step.
-/

/-- Mock capability: every operation succeeds with a distinctive handle. -/
def okClient : CCIPClient where
  deploy_sender_contract := fun _ => .ok (lc "0xSENDER")
  send_tokens_to_sender_contract := fun _ _ _ => .ok (lc "0xTOKTX")
  send_eth_to_contract := fun _ _ => .ok (lc "0xETHTX")
  allow_destination_chain := fun _ _ => .ok (lc "0xDEST")
  deploy_receiver_contract := fun _ => .ok (lc "0xRECEIVER")
  allow_source_chain := fun _ _ => .ok (lc "0xSRC")
  allow_sender_on_receiver := fun _ _ => .ok (lc "0xLINK")
  transfer := fun _ _ _ _ => .ok (lc "ccip.explorer/track/42")

/-- Mock capability failing at step 5 (deploy receiver). -/
def fail5Client : CCIPClient :=
  { okClient with deploy_receiver_contract := fun _ => .error (lc "execution reverted") }

/-- Mock capability failing at step 2 with cause `boom`. -/
def fail2BoomClient : CCIPClient :=
  { okClient with send_tokens_to_sender_contract := fun _ _ _ => .error (lc "boom") }

/-- Mock capability failing at step 5 with cause `boom`. -/
def fail5BoomClient : CCIPClient :=
  { okClient with deploy_receiver_contract := fun _ => .error (lc "boom") }

/-- A well-formed request: `ethereum → base`, all optional arguments
absent. -/
def argsW : TransferArgs where
  sender_chain := lc "ethereum"
  receiver_chain := lc "base"
  private_key := lc "0xdeadbeef"
  token_type := none
  token_amount := none
  eth_amount := none
  transfer_amount := none
  message := none

/-- A request whose two chain inputs resolve to the same chain
(`eth` and `sepolia` are both aliases of `ethereum_sepolia`). -/
def argsSame : TransferArgs where
  sender_chain := lc "eth"
  receiver_chain := lc "sepolia"
  private_key := lc "0xdeadbeef"
  token_type := none
  token_amount := none
  eth_amount := none
  transfer_amount := none
  message := none

/-- A request whose sender chain input resolves to nothing. -/
def argsBadSender : TransferArgs where
  sender_chain := lc "123456"
  receiver_chain := lc "base"
  private_key := lc "0xdeadbeef"
  token_type := none
  token_amount := none
  eth_amount := none
  transfer_amount := none
  message := none

/-!
Helper lemmas about the resolver.
-/

/-- Any lowered alias of a registry entry occurs in the flattened
`all_aliases` list. -/
theorem mem_allAliases {p : List Char × List (List Char)} {u : List Char}
    (hp : p ∈ SUPPORTED_CHAINS) (hu : u ∈ p.2.map lowerL) : u ∈ allAliases := by
  unfold allAliases
  exact List.mem_flatten.mpr ⟨p.2.map lowerL, List.mem_map_of_mem _ hp, hu⟩

/-- A hit of the direct-match pass comes from a registry entry whose lowered
aliases contain the input. -/
theorem exactPass_mem {u c : List Char} (h : exactPass u = some c) :
    ∃ p, p ∈ SUPPORTED_CHAINS ∧ p.1 = c ∧ u ∈ p.2.map lowerL := by
  unfold exactPass at h
  cases hf : SUPPORTED_CHAINS.find? (fun p => decide (u ∈ p.2.map lowerL)) with
  | none => rw [hf] at h; cases h
  | some p =>
    rw [hf] at h
    refine ⟨p, List.mem_of_find?_eq_some hf, ?_, ?_⟩
    · simpa using h
    · simpa using List.find?_some hf

/-- A `chain_mapping` value is one of the four canonical identifiers. -/
theorem chain_mapping_mem {u c : List Char} (h : chain_mapping u = some c) :
    c ∈ SUPPORTED_CHAINS.map (fun p => p.1) := by
  unfold chain_mapping at h
  cases hf : aliasPairs.reverse.find? (fun q => decide (q.1 = u)) with
  | none => rw [hf] at h; cases h
  | some q =>
    rw [hf] at h
    have hq : q ∈ aliasPairs := by
      have := List.mem_of_find?_eq_some hf
      rwa [List.mem_reverse] at this
    unfold aliasPairs at hq
    rw [List.mem_flatten] at hq
    obtain ⟨l, hl, hql⟩ := hq
    rw [List.mem_map] at hl
    obtain ⟨p, hp, rfl⟩ := hl
    rw [List.mem_map] at hql
    obtain ⟨a, _, rfl⟩ := hql
    have hc : c = p.1 := by simpa using h.symm
    exact hc ▸ List.mem_map_of_mem _ hp

/-- `findNorm` only ever returns one of the four canonical identifiers. -/
theorem findNorm_mem {u c : List Char} (h : findNorm u = some c) :
    c ∈ SUPPORTED_CHAINS.map (fun p => p.1) := by
  unfold findNorm at h
  cases hE : exactPass u with
  | some c0 =>
    rw [hE] at h
    obtain ⟨p, hp, hpc, _⟩ := exactPass_mem hE
    have : c0 = c := by simpa using h
    exact (this ▸ hpc) ▸ List.mem_map_of_mem _ hp
  | none =>
    rw [hE] at h
    cases hG : get_close_matches1 u with
    | none => rw [hG] at h; cases h
    | some m => rw [hG] at h; exact chain_mapping_mem h

/-- A fold of `gcmStep` over candidates that all miss the cutoff leaves the
accumulator unchanged. -/
theorem gcmFold_const {w : List Char} :
    ∀ l : List (List Char), (∀ a ∈ l, ratioGE a w = false) →
      ∀ acc, l.foldl (gcmStep w) acc = acc := by
  intro l
  induction l with
  | nil => intro _ acc; rfl
  | cons x xs ih =>
    intro h acc
    have hx : ratioGE x w = false := h x (List.mem_cons_self x xs)
    have hstep : gcmStep w acc x = acc := by unfold gcmStep; rw [hx]; rfl
    simp only [List.foldl_cons, hstep]
    exact ih (fun a ha => h a (List.mem_cons_of_mem x ha)) acc

/-- When no alias meets the cutoff the fuzzy pass returns nothing. -/
theorem get_close_matches1_none {w : List Char}
    (h : ∀ a ∈ allAliases, ratioGE a w = false) :
    get_close_matches1 w = none := by
  unfold get_close_matches1
  exact gcmFold_const allAliases h none

/-- Every string in the `all_aliases` list has similarity 1 with itself, so
it meets the 0.6 cutoff. -/
theorem ratioGE_self_allAliases : ∀ a ∈ allAliases, ratioGE a a = true := by
  decide

/-- C7: the chain registry has exactly four canonical-identifier entries,
and the alias sets of distinct entries are pairwise disjoint after
case-folding. -/
theorem c7_registry_four_disjoint :
    SUPPORTED_CHAINS.length = 4 ∧
    List.Pairwise (fun p q => ∀ a ∈ p.2.map lowerL, a ∉ q.2.map lowerL)
      SUPPORTED_CHAINS := by
  exact ⟨rfl, by decide⟩

/-- C5: for every registered alias `a` of chain `c` and every input string
whose normalization (lower-case, strip) equals the case-folded alias, the
resolver returns `c`, and already the exact pass does — fuzzy matching is
never consulted. -/
theorem c5_exact_pass_wins :
    ∀ (s : List Char) (p : List Char × List (List Char)),
      p ∈ SUPPORTED_CHAINS → normalizeInput s ∈ p.2.map lowerL →
      exactPass (normalizeInput s) = some p.1 ∧
        find_closest_chain s = some p.1 := by
  intro s p hp hm
  unfold find_closest_chain
  rw [List.mem_map] at hm
  obtain ⟨a, ha, heq⟩ := hm
  rw [← heq]
  fin_cases hp <;> fin_cases ha <;> exact ⟨by decide, by decide⟩

/-- Witness for C5 at the concrete input `" ETH "`(alias `"eth"` of
`ethereum_sepolia`, altered in case and whitespace). -/
theorem c5_exact_pass_wins_witness :
    exactPass (normalizeInput (lc " ETH ")) = some (lc "ethereum_sepolia") ∧
      find_closest_chain (lc " ETH ") = some (lc "ethereum_sepolia") :=
  c5_exact_pass_wins (lc " ETH ")
    (lc "ethereum_sepolia",
      [lc "ethereum", lc "eth", lc "sepolia", lc "ethereum sepolia",
       lc "eth sepolia", lc "ethereum_sepolia"])
    (by decide) (by decide)

/-- C6: the four reference resolutions (`"eth"`, `"ETH SEPOLIA "`,
`"arbitrun"`, `"xyz123"`), and absence — never an error — for every input
for which no alias reaches the 0.6 similarity cutoff. -/
theorem c6_resolver_examples :
    find_closest_chain (lc "eth") = some (lc "ethereum_sepolia") ∧
    find_closest_chain (lc "ETH SEPOLIA ") = some (lc "ethereum_sepolia") ∧
    find_closest_chain (lc "arbitrun") = some (lc "arbitrum_sepolia") ∧
    find_closest_chain (lc "xyz123") = none ∧
    ∀ s : List Char,
      (∀ a ∈ allAliases, ratioGE a (normalizeInput s) = false) →
      find_closest_chain s = none := by
  refine ⟨by decide, by decide, by decide, by decide, ?_⟩
  intro s hall
  unfold find_closest_chain findNorm
  cases hE : exactPass (normalizeInput s) with
  | some c =>
    exfalso
    obtain ⟨p, hp, -, hu⟩ := exactPass_mem hE
    have hmem := mem_allAliases hp hu
    have hfalse := hall _ hmem
    rw [ratioGE_self_allAliases _ hmem] at hfalse
    cases hfalse
  | none =>
    simp only [get_close_matches1_none hall]

/-- Witness for C6's universal part at the concrete input `"zzz9"`. -/
theorem c6_resolver_examples_witness :
    (∀ a ∈ allAliases, ratioGE a (normalizeInput (lc "zzz9")) = false) ∧
      find_closest_chain (lc "zzz9") = none :=
  ⟨by decide, c6_resolver_examples.2.2.2.2 (lc "zzz9") (by decide)⟩

/-- C9: every canonical identifier is an alias of its own entry, the
resolver maps each canonical identifier to itself, and the resolver is
idempotent on every resolvable input. -/
theorem c9_resolver_idempotent :
    (∀ p ∈ SUPPORTED_CHAINS, p.1 ∈ p.2) ∧
    (∀ c ∈ SUPPORTED_CHAINS.map (fun p => p.1),
        find_closest_chain c = some c) ∧
    (∀ x c : List Char, find_closest_chain x = some c →
        find_closest_chain c = some c) := by
  have hcan : ∀ c ∈ SUPPORTED_CHAINS.map (fun p => p.1),
      find_closest_chain c = some c := by decide
  refine ⟨by decide, hcan, ?_⟩
  intro x c h
  exact hcan c (findNorm_mem h)

/-- Witness for C9: resolving the canonical identifier returned for
`"avax"` is a fixed point. -/
theorem c9_resolver_idempotent_witness :
    find_closest_chain (lc "avalanche_fuji") = some (lc "avalanche_fuji") :=
  c9_resolver_idempotent.2.2 (lc "avax") (lc "avalanche_fuji") (by decide)

/-!
Helper lemmas about the orchestrator.
-/

/-- An infix of `m` is an infix of `t ++ m`. -/
theorem infix_ext_left {x m : List Char} (t : List Char) (h : x <:+: m) :
    x <:+: t ++ m := by
  obtain ⟨s, r, hsr⟩ := h
  exact ⟨t ++ s, r, by rw [← hsr]; simp [List.append_assoc]⟩

/-- Once validation passes, `execute_ccip_transfer` is the step runner on
the resolved chains and defaulted parameters. -/
theorem execute_valid (args : TransferArgs) (client : CCIPClient)
    (sc rc : List Char)
    (hs : find_closest_chain args.sender_chain = some sc)
    (hr : find_closest_chain args.receiver_chain = some rc)
    (hne : sc ≠ rc) :
    execute_ccip_transfer args client = runSteps client sc rc (getParams args) := by
  unfold execute_ccip_transfer
  simp only [hs, hr, if_neg hne]

/-- A failure of step 1 halts the run with the failure text and only the
first capability call issued. -/
theorem runSteps_fail1 (client : CCIPClient) (sc rc : List Char)
    (p : TransferParams) (e : List Char)
    (h : client.deploy_sender_contract sc = .error e) :
    runSteps client sc rc p = ((stepCalls sc rc p).take 1, errorMsg e) := by
  unfold runSteps
  simp only [h]
  rfl

/-- A failure of step 2 halts the run after exactly two capability calls. -/
theorem runSteps_fail2 (client : CCIPClient) (sc rc : List Char)
    (p : TransferParams) (h1 e : List Char)
    (k1 : client.deploy_sender_contract sc = .ok h1)
    (h : client.send_tokens_to_sender_contract sc p.token_type p.token_amount = .error e) :
    runSteps client sc rc p = ((stepCalls sc rc p).take 2, errorMsg e) := by
  unfold runSteps
  simp only [k1, h]
  rfl

/-- A failure of step 3 halts the run after exactly three capability calls. -/
theorem runSteps_fail3 (client : CCIPClient) (sc rc : List Char)
    (p : TransferParams) (h1 h2 e : List Char)
    (k1 : client.deploy_sender_contract sc = .ok h1)
    (k2 : client.send_tokens_to_sender_contract sc p.token_type p.token_amount = .ok h2)
    (h : client.send_eth_to_contract sc p.eth_amount = .error e) :
    runSteps client sc rc p = ((stepCalls sc rc p).take 3, errorMsg e) := by
  unfold runSteps
  simp only [k1, k2, h]
  rfl

/-- A failure of step 4 halts the run after exactly four capability calls. -/
theorem runSteps_fail4 (client : CCIPClient) (sc rc : List Char)
    (p : TransferParams) (h1 h2 h3 e : List Char)
    (k1 : client.deploy_sender_contract sc = .ok h1)
    (k2 : client.send_tokens_to_sender_contract sc p.token_type p.token_amount = .ok h2)
    (k3 : client.send_eth_to_contract sc p.eth_amount = .ok h3)
    (h : client.allow_destination_chain sc rc = .error e) :
    runSteps client sc rc p = ((stepCalls sc rc p).take 4, errorMsg e) := by
  unfold runSteps
  simp only [k1, k2, k3, h]
  rfl

/-- A failure of step 5 halts the run after exactly five capability calls. -/
theorem runSteps_fail5 (client : CCIPClient) (sc rc : List Char)
    (p : TransferParams) (h1 h2 h3 h4 e : List Char)
    (k1 : client.deploy_sender_contract sc = .ok h1)
    (k2 : client.send_tokens_to_sender_contract sc p.token_type p.token_amount = .ok h2)
    (k3 : client.send_eth_to_contract sc p.eth_amount = .ok h3)
    (k4 : client.allow_destination_chain sc rc = .ok h4)
    (h : client.deploy_receiver_contract rc = .error e) :
    runSteps client sc rc p = ((stepCalls sc rc p).take 5, errorMsg e) := by
  unfold runSteps
  simp only [k1, k2, k3, k4, h]
  rfl

/-- A failure of step 6 halts the run after exactly six capability calls. -/
theorem runSteps_fail6 (client : CCIPClient) (sc rc : List Char)
    (p : TransferParams) (h1 h2 h3 h4 h5 e : List Char)
    (k1 : client.deploy_sender_contract sc = .ok h1)
    (k2 : client.send_tokens_to_sender_contract sc p.token_type p.token_amount = .ok h2)
    (k3 : client.send_eth_to_contract sc p.eth_amount = .ok h3)
    (k4 : client.allow_destination_chain sc rc = .ok h4)
    (k5 : client.deploy_receiver_contract rc = .ok h5)
    (h : client.allow_source_chain rc sc = .error e) :
    runSteps client sc rc p = ((stepCalls sc rc p).take 6, errorMsg e) := by
  unfold runSteps
  simp only [k1, k2, k3, k4, k5, h]
  rfl

/-- A failure of step 7 halts the run after exactly seven capability calls. -/
theorem runSteps_fail7 (client : CCIPClient) (sc rc : List Char)
    (p : TransferParams) (h1 h2 h3 h4 h5 h6 e : List Char)
    (k1 : client.deploy_sender_contract sc = .ok h1)
    (k2 : client.send_tokens_to_sender_contract sc p.token_type p.token_amount = .ok h2)
    (k3 : client.send_eth_to_contract sc p.eth_amount = .ok h3)
    (k4 : client.allow_destination_chain sc rc = .ok h4)
    (k5 : client.deploy_receiver_contract rc = .ok h5)
    (k6 : client.allow_source_chain rc sc = .ok h6)
    (h : client.allow_sender_on_receiver sc rc = .error e) :
    runSteps client sc rc p = ((stepCalls sc rc p).take 7, errorMsg e) := by
  unfold runSteps
  simp only [k1, k2, k3, k4, k5, k6, h]
  rfl

/-- A failure of step 8 halts the run after all eight capability calls,
still returning the failure text. -/
theorem runSteps_fail8 (client : CCIPClient) (sc rc : List Char)
    (p : TransferParams) (h1 h2 h3 h4 h5 h6 h7 e : List Char)
    (k1 : client.deploy_sender_contract sc = .ok h1)
    (k2 : client.send_tokens_to_sender_contract sc p.token_type p.token_amount = .ok h2)
    (k3 : client.send_eth_to_contract sc p.eth_amount = .ok h3)
    (k4 : client.allow_destination_chain sc rc = .ok h4)
    (k5 : client.deploy_receiver_contract rc = .ok h5)
    (k6 : client.allow_source_chain rc sc = .ok h6)
    (k7 : client.allow_sender_on_receiver sc rc = .ok h7)
    (h : client.transfer sc rc p.message p.transfer_amount = .error e) :
    runSteps client sc rc p = ((stepCalls sc rc p).take 8, errorMsg e) := by
  unfold runSteps
  simp only [k1, k2, k3, k4, k5, k6, k7, h]
  rfl

/-- When all eight capability calls succeed, the runner issues exactly the
eight calls in order and returns the success text built from the returned
handles. -/
theorem runSteps_ok (client : CCIPClient) (sc rc : List Char)
    (p : TransferParams) (h1 h2 h3 h4 h5 h6 h7 h8 : List Char)
    (k1 : client.deploy_sender_contract sc = .ok h1)
    (k2 : client.send_tokens_to_sender_contract sc p.token_type p.token_amount = .ok h2)
    (k3 : client.send_eth_to_contract sc p.eth_amount = .ok h3)
    (k4 : client.allow_destination_chain sc rc = .ok h4)
    (k5 : client.deploy_receiver_contract rc = .ok h5)
    (k6 : client.allow_source_chain rc sc = .ok h6)
    (k7 : client.allow_sender_on_receiver sc rc = .ok h7)
    (k8 : client.transfer sc rc p.message p.transfer_amount = .ok h8) :
    runSteps client sc rc p =
      (stepCalls sc rc p, successText sc rc p h1 h2 h3 h4 h5 h6 h7 h8) := by
  unfold runSteps
  simp only [k1, k2, k3, k4, k5, k6, k7, k8]

/-- The sender-contract handle appears verbatim in the success text. -/
theorem senderHandle_infix (sc rc : List Char) (p : TransferParams)
    (h1 h2 h3 h4 h5 h6 h7 h8 : List Char) :
    h1 <:+: successText sc rc p h1 h2 h3 h4 h5 h6 h7 h8 := by
  unfold successText
  simp only [List.append_assoc]
  repeat first
  | exact (List.prefix_append _ _).isInfix
  | apply infix_ext_left

/-- The receiver-contract handle appears verbatim in the success text. -/
theorem receiverHandle_infix (sc rc : List Char) (p : TransferParams)
    (h1 h2 h3 h4 h5 h6 h7 h8 : List Char) :
    h5 <:+: successText sc rc p h1 h2 h3 h4 h5 h6 h7 h8 := by
  unfold successText
  simp only [List.append_assoc]
  repeat first
  | exact (List.prefix_append _ _).isInfix
  | apply infix_ext_left

/-- The tracking handle appears verbatim in the success text. -/
theorem trackingHandle_infix (sc rc : List Char) (p : TransferParams)
    (h1 h2 h3 h4 h5 h6 h7 h8 : List Char) :
    h8 <:+: successText sc rc p h1 h2 h3 h4 h5 h6 h7 h8 := by
  unfold successText
  simp only [List.append_assoc]
  repeat first
  | exact (List.prefix_append _ _).isInfix
  | apply infix_ext_left

/-- C1: in every run in which all eight capability calls succeed, the
orchestrator invokes each of the eight capability operations exactly once,
in program order, and the success payload carries verbatim the
sender-contract handle, the receiver-contract handle and the transfer
tracking handle the capability returned. -/
theorem c1_success_run :
    ∀ (args : TransferArgs) (client : CCIPClient)
      (sc rc h1 h2 h3 h4 h5 h6 h7 h8 : List Char),
      find_closest_chain args.sender_chain = some sc →
      find_closest_chain args.receiver_chain = some rc →
      sc ≠ rc →
      client.deploy_sender_contract sc = .ok h1 →
      client.send_tokens_to_sender_contract sc (getParams args).token_type
        (getParams args).token_amount = .ok h2 →
      client.send_eth_to_contract sc (getParams args).eth_amount = .ok h3 →
      client.allow_destination_chain sc rc = .ok h4 →
      client.deploy_receiver_contract rc = .ok h5 →
      client.allow_source_chain rc sc = .ok h6 →
      client.allow_sender_on_receiver sc rc = .ok h7 →
      client.transfer sc rc (getParams args).message
        (getParams args).transfer_amount = .ok h8 →
      execute_ccip_transfer args client =
        (stepCalls sc rc (getParams args),
          successText sc rc (getParams args) h1 h2 h3 h4 h5 h6 h7 h8) ∧
      h1 <:+: (execute_ccip_transfer args client).2 ∧
      h5 <:+: (execute_ccip_transfer args client).2 ∧
      h8 <:+: (execute_ccip_transfer args client).2 := by
  intro args client sc rc h1 h2 h3 h4 h5 h6 h7 h8 hs hr hne k1 k2 k3 k4 k5 k6 k7 k8
  have heq := (execute_valid args client sc rc hs hr hne).trans
    (runSteps_ok client sc rc (getParams args) h1 h2 h3 h4 h5 h6 h7 h8
      k1 k2 k3 k4 k5 k6 k7 k8)
  refine ⟨heq, ?_, ?_, ?_⟩ <;> rw [heq]
  · exact senderHandle_infix sc rc (getParams args) h1 h2 h3 h4 h5 h6 h7 h8
  · exact receiverHandle_infix sc rc (getParams args) h1 h2 h3 h4 h5 h6 h7 h8
  · exact trackingHandle_infix sc rc (getParams args) h1 h2 h3 h4 h5 h6 h7 h8

/-- Witness for C1: a fully successful `ethereum → base` run on the mock
capability. -/
theorem c1_success_run_witness :
    execute_ccip_transfer argsW okClient =
      (stepCalls (lc "ethereum_sepolia") (lc "base_sepolia") (getParams argsW),
        successText (lc "ethereum_sepolia") (lc "base_sepolia") (getParams argsW)
          (lc "0xSENDER") (lc "0xTOKTX") (lc "0xETHTX") (lc "0xDEST")
          (lc "0xRECEIVER") (lc "0xSRC") (lc "0xLINK")
          (lc "ccip.explorer/track/42")) ∧
    lc "0xSENDER" <:+: (execute_ccip_transfer argsW okClient).2 ∧
    lc "0xRECEIVER" <:+: (execute_ccip_transfer argsW okClient).2 ∧
    lc "ccip.explorer/track/42" <:+: (execute_ccip_transfer argsW okClient).2 :=
  c1_success_run argsW okClient
    (lc "ethereum_sepolia") (lc "base_sepolia")
    (lc "0xSENDER") (lc "0xTOKTX") (lc "0xETHTX") (lc "0xDEST")
    (lc "0xRECEIVER") (lc "0xSRC") (lc "0xLINK") (lc "ccip.explorer/track/42")
    (by decide) (by decide) (by decide)
    rfl rfl rfl rfl rfl rfl rfl rfl

/-- C2: if step `k` fails, the orchestrator issues exactly the first `k`
capability calls — no later step, no retry, no compensating call — and
returns the failure text carrying the underlying error text verbatim; in
particular a step-5 failure leaves steps 6, 7, 8 uninvoked.  One conjunct
per failing step. -/
theorem c2_halt_on_failure :
    (∀ (args : TransferArgs) (client : CCIPClient) (sc rc e : List Char),
      find_closest_chain args.sender_chain = some sc →
      find_closest_chain args.receiver_chain = some rc →
      sc ≠ rc →
      client.deploy_sender_contract sc = .error e →
      execute_ccip_transfer args client =
        ((stepCalls sc rc (getParams args)).take 1, errorMsg e)) ∧
    (∀ (args : TransferArgs) (client : CCIPClient) (sc rc h1 e : List Char),
      find_closest_chain args.sender_chain = some sc →
      find_closest_chain args.receiver_chain = some rc →
      sc ≠ rc →
      client.deploy_sender_contract sc = .ok h1 →
      client.send_tokens_to_sender_contract sc (getParams args).token_type
        (getParams args).token_amount = .error e →
      execute_ccip_transfer args client =
        ((stepCalls sc rc (getParams args)).take 2, errorMsg e)) ∧
    (∀ (args : TransferArgs) (client : CCIPClient) (sc rc h1 h2 e : List Char),
      find_closest_chain args.sender_chain = some sc →
      find_closest_chain args.receiver_chain = some rc →
      sc ≠ rc →
      client.deploy_sender_contract sc = .ok h1 →
      client.send_tokens_to_sender_contract sc (getParams args).token_type
        (getParams args).token_amount = .ok h2 →
      client.send_eth_to_contract sc (getParams args).eth_amount = .error e →
      execute_ccip_transfer args client =
        ((stepCalls sc rc (getParams args)).take 3, errorMsg e)) ∧
    (∀ (args : TransferArgs) (client : CCIPClient) (sc rc h1 h2 h3 e : List Char),
      find_closest_chain args.sender_chain = some sc →
      find_closest_chain args.receiver_chain = some rc →
      sc ≠ rc →
      client.deploy_sender_contract sc = .ok h1 →
      client.send_tokens_to_sender_contract sc (getParams args).token_type
        (getParams args).token_amount = .ok h2 →
      client.send_eth_to_contract sc (getParams args).eth_amount = .ok h3 →
      client.allow_destination_chain sc rc = .error e →
      execute_ccip_transfer args client =
        ((stepCalls sc rc (getParams args)).take 4, errorMsg e)) ∧
    (∀ (args : TransferArgs) (client : CCIPClient) (sc rc h1 h2 h3 h4 e : List Char),
      find_closest_chain args.sender_chain = some sc →
      find_closest_chain args.receiver_chain = some rc →
      sc ≠ rc →
      client.deploy_sender_contract sc = .ok h1 →
      client.send_tokens_to_sender_contract sc (getParams args).token_type
        (getParams args).token_amount = .ok h2 →
      client.send_eth_to_contract sc (getParams args).eth_amount = .ok h3 →
      client.allow_destination_chain sc rc = .ok h4 →
      client.deploy_receiver_contract rc = .error e →
      execute_ccip_transfer args client =
        ((stepCalls sc rc (getParams args)).take 5, errorMsg e)) ∧
    (∀ (args : TransferArgs) (client : CCIPClient)
        (sc rc h1 h2 h3 h4 h5 e : List Char),
      find_closest_chain args.sender_chain = some sc →
      find_closest_chain args.receiver_chain = some rc →
      sc ≠ rc →
      client.deploy_sender_contract sc = .ok h1 →
      client.send_tokens_to_sender_contract sc (getParams args).token_type
        (getParams args).token_amount = .ok h2 →
      client.send_eth_to_contract sc (getParams args).eth_amount = .ok h3 →
      client.allow_destination_chain sc rc = .ok h4 →
      client.deploy_receiver_contract rc = .ok h5 →
      client.allow_source_chain rc sc = .error e →
      execute_ccip_transfer args client =
        ((stepCalls sc rc (getParams args)).take 6, errorMsg e)) ∧
    (∀ (args : TransferArgs) (client : CCIPClient)
        (sc rc h1 h2 h3 h4 h5 h6 e : List Char),
      find_closest_chain args.sender_chain = some sc →
      find_closest_chain args.receiver_chain = some rc →
      sc ≠ rc →
      client.deploy_sender_contract sc = .ok h1 →
      client.send_tokens_to_sender_contract sc (getParams args).token_type
        (getParams args).token_amount = .ok h2 →
      client.send_eth_to_contract sc (getParams args).eth_amount = .ok h3 →
      client.allow_destination_chain sc rc = .ok h4 →
      client.deploy_receiver_contract rc = .ok h5 →
      client.allow_source_chain rc sc = .ok h6 →
      client.allow_sender_on_receiver sc rc = .error e →
      execute_ccip_transfer args client =
        ((stepCalls sc rc (getParams args)).take 7, errorMsg e)) ∧
    (∀ (args : TransferArgs) (client : CCIPClient)
        (sc rc h1 h2 h3 h4 h5 h6 h7 e : List Char),
      find_closest_chain args.sender_chain = some sc →
      find_closest_chain args.receiver_chain = some rc →
      sc ≠ rc →
      client.deploy_sender_contract sc = .ok h1 →
      client.send_tokens_to_sender_contract sc (getParams args).token_type
        (getParams args).token_amount = .ok h2 →
      client.send_eth_to_contract sc (getParams args).eth_amount = .ok h3 →
      client.allow_destination_chain sc rc = .ok h4 →
      client.deploy_receiver_contract rc = .ok h5 →
      client.allow_source_chain rc sc = .ok h6 →
      client.allow_sender_on_receiver sc rc = .ok h7 →
      client.transfer sc rc (getParams args).message
        (getParams args).transfer_amount = .error e →
      execute_ccip_transfer args client =
        ((stepCalls sc rc (getParams args)).take 8, errorMsg e)) := by
  refine ⟨?_, ?_, ?_, ?_, ?_, ?_, ?_, ?_⟩
  · intro args client sc rc e hs hr hne h
    exact (execute_valid args client sc rc hs hr hne).trans
      (runSteps_fail1 client sc rc (getParams args) e h)
  · intro args client sc rc h1 e hs hr hne k1 h
    exact (execute_valid args client sc rc hs hr hne).trans
      (runSteps_fail2 client sc rc (getParams args) h1 e k1 h)
  · intro args client sc rc h1 h2 e hs hr hne k1 k2 h
    exact (execute_valid args client sc rc hs hr hne).trans
      (runSteps_fail3 client sc rc (getParams args) h1 h2 e k1 k2 h)
  · intro args client sc rc h1 h2 h3 e hs hr hne k1 k2 k3 h
    exact (execute_valid args client sc rc hs hr hne).trans
      (runSteps_fail4 client sc rc (getParams args) h1 h2 h3 e k1 k2 k3 h)
  · intro args client sc rc h1 h2 h3 h4 e hs hr hne k1 k2 k3 k4 h
    exact (execute_valid args client sc rc hs hr hne).trans
      (runSteps_fail5 client sc rc (getParams args) h1 h2 h3 h4 e k1 k2 k3 k4 h)
  · intro args client sc rc h1 h2 h3 h4 h5 e hs hr hne k1 k2 k3 k4 k5 h
    exact (execute_valid args client sc rc hs hr hne).trans
      (runSteps_fail6 client sc rc (getParams args) h1 h2 h3 h4 h5 e k1 k2 k3 k4 k5 h)
  · intro args client sc rc h1 h2 h3 h4 h5 h6 e hs hr hne k1 k2 k3 k4 k5 k6 h
    exact (execute_valid args client sc rc hs hr hne).trans
      (runSteps_fail7 client sc rc (getParams args) h1 h2 h3 h4 h5 h6 e
        k1 k2 k3 k4 k5 k6 h)
  · intro args client sc rc h1 h2 h3 h4 h5 h6 h7 e hs hr hne k1 k2 k3 k4 k5 k6 k7 h
    exact (execute_valid args client sc rc hs hr hne).trans
      (runSteps_fail8 client sc rc (getParams args) h1 h2 h3 h4 h5 h6 h7 e
        k1 k2 k3 k4 k5 k6 k7 h)

/-- Witness for C2 at step 5: on the mock that reverts in
`deploy_receiver_contract`, exactly the first five calls are issued and the
failure text carries the revert message. -/
theorem c2_halt_on_failure_witness :
    execute_ccip_transfer argsW fail5Client =
      ((stepCalls (lc "ethereum_sepolia") (lc "base_sepolia")
          (getParams argsW)).take 5,
        errorMsg (lc "execution reverted")) :=
  c2_halt_on_failure.2.2.2.2.1 argsW fail5Client
    (lc "ethereum_sepolia") (lc "base_sepolia")
    (lc "0xSENDER") (lc "0xTOKTX") (lc "0xETHTX") (lc "0xDEST")
    (lc "execution reverted")
    (by decide) (by decide) (by decide)
    rfl rfl rfl rfl rfl

/-- C4: validation precedes every capability step: an unresolvable sender
yields the unresolved-sender failure, otherwise an unresolvable receiver
yields the unresolved-receiver failure, otherwise equal resolved chains
yield the same-chain failure — and in all three cases the capability-call
trace is empty. -/
theorem c4_validation_first :
    (∀ (args : TransferArgs) (client : CCIPClient),
      find_closest_chain args.sender_chain = none →
      execute_ccip_transfer args client = ([], invalidSenderMsg args.sender_chain)) ∧
    (∀ (args : TransferArgs) (client : CCIPClient) (sc : List Char),
      find_closest_chain args.sender_chain = some sc →
      find_closest_chain args.receiver_chain = none →
      execute_ccip_transfer args client = ([], invalidReceiverMsg args.receiver_chain)) ∧
    (∀ (args : TransferArgs) (client : CCIPClient) (sc rc : List Char),
      find_closest_chain args.sender_chain = some sc →
      find_closest_chain args.receiver_chain = some rc →
      sc = rc →
      execute_ccip_transfer args client = ([], sameChainMsg)) := by
  refine ⟨?_, ?_, ?_⟩
  · intro args client hs
    unfold execute_ccip_transfer
    simp only [hs]
  · intro args client sc hs hr
    unfold execute_ccip_transfer
    simp only [hs, hr]
  · intro args client sc rc hs hr he
    unfold execute_ccip_transfer
    simp only [hs, hr, if_pos he]

/-- Witness for C4 at the concrete unresolvable sender input `"123456"`. -/
theorem c4_validation_first_witness :
    execute_ccip_transfer argsBadSender okClient =
      ([], invalidSenderMsg (lc "123456")) :=
  c4_validation_first.1 argsBadSender okClient (by decide)

/-- C8: each absent optional argument is replaced by its documented
default: token type `CCIP-BnM`, token amount `0.1`, gas amount `0.05`,
transfer amount `0.069`, message `Cross-chain transfer via MCP`. -/
theorem c8_defaults :
    ∀ args : TransferArgs,
      (args.token_type = none → (getParams args).token_type = lc "CCIP-BnM") ∧
      (args.token_amount = none → (getParams args).token_amount = (0.1 : ℚ)) ∧
      (args.eth_amount = none → (getParams args).eth_amount = (0.05 : ℚ)) ∧
      (args.transfer_amount = none →
        (getParams args).transfer_amount = (0.069 : ℚ)) ∧
      (args.message = none →
        (getParams args).message = lc "Cross-chain transfer via MCP") := by
  intro args
  refine ⟨fun h => ?_, fun h => ?_, fun h => ?_, fun h => ?_, fun h => ?_⟩ <;>
    simp [getParams, h]

/-- Witness for C8 on the request with every optional argument absent. -/
theorem c8_defaults_witness :
    (getParams argsW).token_type = lc "CCIP-BnM" ∧
    (getParams argsW).token_amount = (0.1 : ℚ) ∧
    (getParams argsW).eth_amount = (0.05 : ℚ) ∧
    (getParams argsW).transfer_amount = (0.069 : ℚ) ∧
    (getParams argsW).message = lc "Cross-chain transfer via MCP" :=
  ⟨(c8_defaults argsW).1 rfl, (c8_defaults argsW).2.1 rfl,
   (c8_defaults argsW).2.2.1 rfl, (c8_defaults argsW).2.2.2.1 rfl,
   (c8_defaults argsW).2.2.2.2 rfl⟩

/-- C3, counterexample: the same-chain validation failure is a failing
invocation whose text contains neither the supported-chain list nor the
token-type list, refuting the claim that every failure response carries
both. -/
theorem c3_counterexample :
    execute_ccip_transfer argsSame okClient = ([], sameChainMsg) ∧
    ¬ supportedChainsStr <:+: sameChainMsg ∧
    ¬ supportedTokensStr <:+: sameChainMsg := by
  refine ⟨by decide, by decide, by decide⟩

/-- C3, amended: a step failure's text carries the raw cause and both the
supported-chain and token lists; an unresolved-chain text carries the
offending input and the chain list but not the token list; the same-chain
text is a fixed message carrying neither list; and the failed step index is
not derivable from the text — two runs failing at different steps with the
same cause produce identical texts. -/
theorem c3_failure_texts_amended :
    (∀ e : List Char, e <:+: errorMsg e ∧
      supportedChainsStr <:+: errorMsg e ∧
      supportedTokensStr <:+: errorMsg e) ∧
    (∀ s : List Char, s <:+: invalidSenderMsg s ∧
      supportedChainsStr <:+: invalidSenderMsg s) ∧
    (∀ s : List Char, s <:+: invalidReceiverMsg s ∧
      supportedChainsStr <:+: invalidReceiverMsg s) ∧
    ¬ supportedChainsStr <:+: sameChainMsg ∧
    ¬ supportedTokensStr <:+: sameChainMsg ∧
    ¬ supportedTokensStr <:+: invalidSenderMsg (lc "foo") ∧
    (execute_ccip_transfer argsW fail2BoomClient).2 =
      (execute_ccip_transfer argsW fail5BoomClient).2 := by
  refine ⟨?_, ?_, ?_, by decide, by decide, by decide, by decide⟩
  · intro e
    unfold errorMsg
    refine ⟨?_, ?_, ?_⟩ <;> simp only [List.append_assoc] <;>
      repeat first
      | exact List.infix_rfl
      | exact (List.prefix_append _ _).isInfix
      | apply infix_ext_left
  · intro s
    unfold invalidSenderMsg
    refine ⟨?_, ?_⟩ <;> simp only [List.append_assoc] <;>
      repeat first
      | exact List.infix_rfl
      | exact (List.prefix_append _ _).isInfix
      | apply infix_ext_left
  · intro s
    unfold invalidReceiverMsg
    refine ⟨?_, ?_⟩ <;> simp only [List.append_assoc] <;>
      repeat first
      | exact List.infix_rfl
      | exact (List.prefix_append _ _).isInfix
      | apply infix_ext_left

/-- C10: on a step failure the accumulated progress narrative is discarded:
the returned text is the failure message alone, a function of the cause
only (one conjunct per failing step), and on a concrete failing run the
response contains no progress marker (every progress line starts with the
in-progress or the completed marker). -/
theorem c10_progress_discarded :
    (∀ (args : TransferArgs) (client : CCIPClient) (sc rc e : List Char),
      find_closest_chain args.sender_chain = some sc →
      find_closest_chain args.receiver_chain = some rc →
      sc ≠ rc →
      client.deploy_sender_contract sc = .error e →
      (execute_ccip_transfer args client).2 = errorMsg e) ∧
    (∀ (args : TransferArgs) (client : CCIPClient) (sc rc h1 e : List Char),
      find_closest_chain args.sender_chain = some sc →
      find_closest_chain args.receiver_chain = some rc →
      sc ≠ rc →
      client.deploy_sender_contract sc = .ok h1 →
      client.send_tokens_to_sender_contract sc (getParams args).token_type
        (getParams args).token_amount = .error e →
      (execute_ccip_transfer args client).2 = errorMsg e) ∧
    (∀ (args : TransferArgs) (client : CCIPClient) (sc rc h1 h2 e : List Char),
      find_closest_chain args.sender_chain = some sc →
      find_closest_chain args.receiver_chain = some rc →
      sc ≠ rc →
      client.deploy_sender_contract sc = .ok h1 →
      client.send_tokens_to_sender_contract sc (getParams args).token_type
        (getParams args).token_amount = .ok h2 →
      client.send_eth_to_contract sc (getParams args).eth_amount = .error e →
      (execute_ccip_transfer args client).2 = errorMsg e) ∧
    (∀ (args : TransferArgs) (client : CCIPClient) (sc rc h1 h2 h3 e : List Char),
      find_closest_chain args.sender_chain = some sc →
      find_closest_chain args.receiver_chain = some rc →
      sc ≠ rc →
      client.deploy_sender_contract sc = .ok h1 →
      client.send_tokens_to_sender_contract sc (getParams args).token_type
        (getParams args).token_amount = .ok h2 →
      client.send_eth_to_contract sc (getParams args).eth_amount = .ok h3 →
      client.allow_destination_chain sc rc = .error e →
      (execute_ccip_transfer args client).2 = errorMsg e) ∧
    (∀ (args : TransferArgs) (client : CCIPClient)
        (sc rc h1 h2 h3 h4 e : List Char),
      find_closest_chain args.sender_chain = some sc →
      find_closest_chain args.receiver_chain = some rc →
      sc ≠ rc →
      client.deploy_sender_contract sc = .ok h1 →
      client.send_tokens_to_sender_contract sc (getParams args).token_type
        (getParams args).token_amount = .ok h2 →
      client.send_eth_to_contract sc (getParams args).eth_amount = .ok h3 →
      client.allow_destination_chain sc rc = .ok h4 →
      client.deploy_receiver_contract rc = .error e →
      (execute_ccip_transfer args client).2 = errorMsg e) ∧
    (∀ (args : TransferArgs) (client : CCIPClient)
        (sc rc h1 h2 h3 h4 h5 e : List Char),
      find_closest_chain args.sender_chain = some sc →
      find_closest_chain args.receiver_chain = some rc →
      sc ≠ rc →
      client.deploy_sender_contract sc = .ok h1 →
      client.send_tokens_to_sender_contract sc (getParams args).token_type
        (getParams args).token_amount = .ok h2 →
      client.send_eth_to_contract sc (getParams args).eth_amount = .ok h3 →
      client.allow_destination_chain sc rc = .ok h4 →
      client.deploy_receiver_contract rc = .ok h5 →
      client.allow_source_chain rc sc = .error e →
      (execute_ccip_transfer args client).2 = errorMsg e) ∧
    (∀ (args : TransferArgs) (client : CCIPClient)
        (sc rc h1 h2 h3 h4 h5 h6 e : List Char),
      find_closest_chain args.sender_chain = some sc →
      find_closest_chain args.receiver_chain = some rc →
      sc ≠ rc →
      client.deploy_sender_contract sc = .ok h1 →
      client.send_tokens_to_sender_contract sc (getParams args).token_type
        (getParams args).token_amount = .ok h2 →
      client.send_eth_to_contract sc (getParams args).eth_amount = .ok h3 →
      client.allow_destination_chain sc rc = .ok h4 →
      client.deploy_receiver_contract rc = .ok h5 →
      client.allow_source_chain rc sc = .ok h6 →
      client.allow_sender_on_receiver sc rc = .error e →
      (execute_ccip_transfer args client).2 = errorMsg e) ∧
    (∀ (args : TransferArgs) (client : CCIPClient)
        (sc rc h1 h2 h3 h4 h5 h6 h7 e : List Char),
      find_closest_chain args.sender_chain = some sc →
      find_closest_chain args.receiver_chain = some rc →
      sc ≠ rc →
      client.deploy_sender_contract sc = .ok h1 →
      client.send_tokens_to_sender_contract sc (getParams args).token_type
        (getParams args).token_amount = .ok h2 →
      client.send_eth_to_contract sc (getParams args).eth_amount = .ok h3 →
      client.allow_destination_chain sc rc = .ok h4 →
      client.deploy_receiver_contract rc = .ok h5 →
      client.allow_source_chain rc sc = .ok h6 →
      client.allow_sender_on_receiver sc rc = .ok h7 →
      client.transfer sc rc (getParams args).message
        (getParams args).transfer_amount = .error e →
      (execute_ccip_transfer args client).2 = errorMsg e) ∧
    ¬ lc "🔄" <:+: (execute_ccip_transfer argsW fail5Client).2 ∧
    ¬ lc "✅" <:+: (execute_ccip_transfer argsW fail5Client).2 := by
  refine ⟨?_, ?_, ?_, ?_, ?_, ?_, ?_, ?_, by decide, by decide⟩
  · intro args client sc rc e hs hr hne h
    rw [(execute_valid args client sc rc hs hr hne).trans
      (runSteps_fail1 client sc rc (getParams args) e h)]
  · intro args client sc rc h1 e hs hr hne k1 h
    rw [(execute_valid args client sc rc hs hr hne).trans
      (runSteps_fail2 client sc rc (getParams args) h1 e k1 h)]
  · intro args client sc rc h1 h2 e hs hr hne k1 k2 h
    rw [(execute_valid args client sc rc hs hr hne).trans
      (runSteps_fail3 client sc rc (getParams args) h1 h2 e k1 k2 h)]
  · intro args client sc rc h1 h2 h3 e hs hr hne k1 k2 k3 h
    rw [(execute_valid args client sc rc hs hr hne).trans
      (runSteps_fail4 client sc rc (getParams args) h1 h2 h3 e k1 k2 k3 h)]
  · intro args client sc rc h1 h2 h3 h4 e hs hr hne k1 k2 k3 k4 h
    rw [(execute_valid args client sc rc hs hr hne).trans
      (runSteps_fail5 client sc rc (getParams args) h1 h2 h3 h4 e k1 k2 k3 k4 h)]
  · intro args client sc rc h1 h2 h3 h4 h5 e hs hr hne k1 k2 k3 k4 k5 h
    rw [(execute_valid args client sc rc hs hr hne).trans
      (runSteps_fail6 client sc rc (getParams args) h1 h2 h3 h4 h5 e
        k1 k2 k3 k4 k5 h)]
  · intro args client sc rc h1 h2 h3 h4 h5 h6 e hs hr hne k1 k2 k3 k4 k5 k6 h
    rw [(execute_valid args client sc rc hs hr hne).trans
      (runSteps_fail7 client sc rc (getParams args) h1 h2 h3 h4 h5 h6 e
        k1 k2 k3 k4 k5 k6 h)]
  · intro args client sc rc h1 h2 h3 h4 h5 h6 h7 e hs hr hne k1 k2 k3 k4 k5 k6 k7 h
    rw [(execute_valid args client sc rc hs hr hne).trans
      (runSteps_fail8 client sc rc (getParams args) h1 h2 h3 h4 h5 h6 h7 e
        k1 k2 k3 k4 k5 k6 k7 h)]

/-- Witness for C10 at step 5 on the reverting mock: the returned text is
exactly the failure message. -/
theorem c10_progress_discarded_witness :
    (execute_ccip_transfer argsW fail5Client).2 =
      errorMsg (lc "execution reverted") :=
  c10_progress_discarded.2.2.2.2.1 argsW fail5Client
    (lc "ethereum_sepolia") (lc "base_sepolia")
    (lc "0xSENDER") (lc "0xTOKTX") (lc "0xETHTX") (lc "0xDEST")
    (lc "execution reverted")
    (by decide) (by decide) (by decide)
    rfl rfl rfl rfl rfl
